import Mathlib

/-
Shallow embedding of the outbound-proxy subsystem of the seomaster backend
(src/backend/app/routers/proxy.py, llm.py, dataforseo.py together with the
auth dependency in src/backend/app/auth.py and the router wiring in
src/backend/app/main.py).  Python dicts are modelled as ordered association
lists, JSON bodies as an inductive value type, byte strings as `String`, and
each handler as a pure function that also returns the ordered list of its
observable effects (environment reads and outbound HTTP calls).  Raised
exceptions are modelled with `Except`; the upstream network is a function
parameter so that theorems can quantify over upstream behaviour.
-/

namespace SeoMaster

/-- JSON-like Python value as carried in FastAPI request and response bodies
(`None`, `bool`, `int`, `str`, `list`, `dict`). -/
inductive JsonV where
  | null : JsonV
  | boolean : Bool → JsonV
  | num : Int → JsonV
  | str : String → JsonV
  | arr : List JsonV → JsonV
  | obj : List (String × JsonV) → JsonV

mutual

/-- Structural equality on JSON-like values (Python `==`). -/
def JsonV.beq : JsonV → JsonV → Bool
  | .null, .null => true
  | .boolean a, .boolean b => a == b
  | .num a, .num b => a == b
  | .str a, .str b => a == b
  | .arr as, .arr bs => JsonV.beqArr as bs
  | .obj as, .obj bs => JsonV.beqObj as bs
  | _, _ => false

/-- Elementwise equality on JSON arrays. -/
def JsonV.beqArr : List JsonV → List JsonV → Bool
  | [], [] => true
  | a :: as, b :: bs => JsonV.beq a b && JsonV.beqArr as bs
  | _, _ => false

/-- Entrywise equality on JSON objects. -/
def JsonV.beqObj : List (String × JsonV) → List (String × JsonV) → Bool
  | [], [] => true
  | (ka, va) :: as, (kb, vb) :: bs => ka == kb && JsonV.beq va vb && JsonV.beqObj as bs
  | _, _ => false

end

instance : BEq JsonV := ⟨JsonV.beq⟩

/-- Python truthiness of a JSON-like value (`if value:`). -/
def pyTruthy : JsonV → Bool
  | .null => false
  | .boolean b => b
  | .num n => n != 0
  | .str s => s != ""
  | .arr xs => !xs.isEmpty
  | .obj kvs => !kvs.isEmpty

/-- Python truthiness of an optional field whose absence is `None`. -/
def pyTruthyOpt : Option JsonV → Bool
  | none => false
  | some v => pyTruthy v

/-- Python falsiness of an optional environment string: `if not value:` is
taken when the variable is unset or set to the empty string. -/
def pyFalsyStr : Option String → Bool
  | none => true
  | some s => s == ""

/-- Exceptions raised by the embedded handlers.  `httpException` models
`fastapi.HTTPException`; `requestError` models `httpx.RequestError`
(transport failure); the others are plain Python exceptions that FastAPI
would surface as an internal server error. -/
inductive PyExc where
  | httpException : Nat → String → PyExc
  | typeError : String → PyExc
  | requestError : String → PyExc
  | jsonDecodeError : String → PyExc
deriving DecidableEq

/-- Python `str(e)` for the exceptions above.  `str` of a starlette
`HTTPException` renders as `"<status>: <detail>"`. -/
def excStr : PyExc → String
  | .httpException status detail => toString status ++ ": " ++ detail
  | .typeError msg => msg
  | .requestError msg => msg
  | .jsonDecodeError msg => msg

/-- HTTP status the caller observes for a handler that returns a JSON value:
a normal return is sent with status 200, a raised `HTTPException` with its
own status, and any other uncaught exception as a 500 internal error. -/
def fastapiStatus {α : Type} : Except PyExc α → Nat
  | .ok _ => 200
  | .error (.httpException status _) => status
  | .error (.typeError _) => 500
  | .error (.requestError _) => 500
  | .error (.jsonDecodeError _) => 500

/-- Python `key in d` for a `Dict[str, str]` modelled as an ordered
association list. -/
def dictContains (d : List (String × String)) (k : String) : Bool :=
  d.any (fun kv => kv.1 == k)

/-- Python `del d[key]`.  Dict keys are unique, so removing every pair with
the key agrees with deleting the single entry. -/
def dictDel (d : List (String × String)) (k : String) : List (String × String) :=
  d.filter (fun kv => kv.1 != k)

/-- Python `d[key] = value`: update in place when the key exists, else append
at the end, preserving insertion order. -/
def dictSet (d : List (String × String)) (k v : String) : List (String × String) :=
  if dictContains d k then d.map (fun kv => if kv.1 == k then (k, v) else kv)
  else d ++ [(k, v)]

/-- Python `payload.get(key)` on a JSON object: the bound value, or `None`
(modelled as `Option`). -/
def pyDictGet (d : List (String × JsonV)) (k : String) : Option JsonV :=
  (d.find? (fun kv => kv.1 == k)).map (fun kv => kv.2)

/-- Python `s.endswith(t)`: `t` is a suffix of the character sequence of
`s`. -/
def pyEndsWith (s t : String) : Bool :=
  t.data.isSuffixOf s.data

/-- Test whether `needle` occurs as a contiguous run inside `haystack`. -/
def listIsInfixOf (needle : List Char) : List Char → Bool
  | [] => needle.isEmpty
  | c :: rest => needle.isPrefixOf (c :: rest) || listIsInfixOf needle rest

/-- Python substring test `needle in haystack` on two strings. -/
def pyStrContains (haystack needle : String) : Bool :=
  listIsInfixOf needle.data haystack.data

/-- Python membership test `needle in value` with a string on the left:
substring test on strings, element membership on lists, key membership on
dicts, and a `TypeError` on `None`, booleans and numbers.  (CPython quotes
the type name in the message; the quotes are omitted here.) -/
def pyInOp (needle : String) : JsonV → Except PyExc Bool
  | .str s => .ok (pyStrContains s needle)
  | .arr xs => .ok (xs.contains (JsonV.str needle))
  | .obj kvs => .ok (kvs.any (fun kv => kv.1 == needle))
  | .null => .error (.typeError "argument of type NoneType is not iterable")
  | .boolean _ => .error (.typeError "argument of type bool is not iterable")
  | .num _ => .error (.typeError "argument of type int is not iterable")

/-- Outbound HTTP request issued through `httpx`. -/
structure OutboundRequest where
  method : String
  url : String
  headers : List (String × String)
  jsonBody : Option JsonV
  basicAuth : Option (String × String)

/-- Observable side effects of a handler: configuration reads and outbound
network calls, in program order. -/
inductive Ev where
  | getenv : String → Ev
  | upstreamCall : OutboundRequest → Ev

/-- Result of one buffered upstream exchange: a transport failure
(`httpx.RequestError`), or a response with status code, declared content
type, body text and — when the body parses as JSON — its parsed value. -/
inductive UpstreamResult where
  | transportError : String → UpstreamResult
  | success : Nat → Option String → String → Option JsonV → UpstreamResult

/-! ## proxy.py — the generic whitelist proxy -/

/-- Domain whitelist of the generic proxy (proxy.py lines 24-45). -/
def ALLOWED_DOMAINS : List String :=
  [ "api.deepl.com"
  , "api-free.deepl.com"
  , "translation.googleapis.com"
  , "api.cognitive.microsofttranslator.com"
  , "api.replicate.com"
  , "api.openai.com"
  , "api.anthropic.com"
  , "api.siliconflow.cn"
  , "image.pollinations.ai"
  , "api-inference.huggingface.co"
  , "api.cloudflare.com"
  , "openrouter.ai"
  , "api.studio.nebius.ai"
  , "open.bigmodel.cn"
  , "ark.cn-beijing.volces.com"
  , "pixabay.com"
  , "api.unsplash.com"
  , "libretranslate.com"
  , "modelscope.cn"
  , "api.stability.ai" ]

/-- Characters after the first occurrence of `"//"`, if any. -/
def afterDoubleSlash : List Char → Option (List Char)
  | '/' :: '/' :: r => some r
  | _ :: rest => afterDoubleSlash rest
  | [] => none

/-- Authority component as computed by `urllib.parse.urlparse(url).netloc`
for the absolute URLs this gateway receives: the maximal run after the first
`"//"` not containing `/`, `?` or `#`; empty when the URL has no `"//"`.
Letter case is preserved and any `:port` or userinfo stays in place. -/
def netloc (url : String) : String :=
  match afterDoubleSlash url.data with
  | none => ""
  | some rest => String.mk (rest.takeWhile (fun c => !(c == '/' || c == '?' || c == '#')))

/-- Domain check inlined in `proxy_request` (proxy.py lines 59-70): admit
when the domain is a member of `ALLOWED_DOMAINS`; otherwise scan the list and
admit when the domain equals an entry or ends with `"." ++ entry`. -/
def is_allowed (domain : String) : Bool :=
  if ALLOWED_DOMAINS.contains domain then true
  else ALLOWED_DOMAINS.any (fun allowed => domain == allowed || pyEndsWith domain ("." ++ allowed))

/-- Header preparation step of `proxy_request` (proxy.py lines 72-82): drop
the keys spelled exactly `host` and `Host`, then assign a default
`User-Agent` when neither `User-Agent` nor `user-agent` is present. -/
def sanitize_headers (h : List (String × String)) : List (String × String) :=
  let h1 := dictDel h "host"
  let h2 := dictDel h1 "Host"
  if !dictContains h2 "User-Agent" && !dictContains h2 "user-agent" then
    dictSet h2 "User-Agent" "SEO-Copilot-Backend/1.0"
  else h2

/-- Request body of `POST /api/proxy` (pydantic model `ProxyRequest`,
proxy.py lines 15-21).  In the source, `method` defaults to `"POST"` and the
optional fields default to `None`; instances here spell every field out. -/
structure ProxyRequest where
  url : String
  method : String
  headers : Option (List (String × String))
  body : Option JsonV
  payload : Option String
  encoding : Option String

/-- FastAPI `Response` as built by `proxy_request` (proxy.py lines 94-100). -/
structure HttpResponse where
  content : String
  statusCode : Nat
  mediaType : String
deriving DecidableEq

/-- Body of the `try:` block of `proxy_request` (proxy.py lines 53-100):
domain validation on the raw `netloc`, header preparation, the outbound call
and content-type-driven response classification.  The base64 `payload` and
`encoding` fields of the request are never consulted; the body sent upstream
is `request.body` when truthy, else no body at all. -/
def proxyTryBody (upstream : OutboundRequest → UpstreamResult) (req : ProxyRequest) :
    Except PyExc HttpResponse × List Ev :=
  let domain := netloc req.url
  if is_allowed domain then
    let headers := sanitize_headers (req.headers.getD [])
    let call : OutboundRequest :=
      { method := req.method
      , url := req.url
      , headers := headers
      , jsonBody := if pyTruthyOpt req.body then req.body else none
      , basicAuth := none }
    match upstream call with
    | .transportError msg => (.error (.requestError msg), [.upstreamCall call])
    | .success status contentType content _ =>
      if pyStrContains (contentType.getD "") "application/json" then
        (.ok { content := content, statusCode := status, mediaType := "application/json" },
         [.upstreamCall call])
      else
        (.ok { content := content
             , statusCode := status
             , mediaType := contentType.getD "application/octet-stream" },
         [.upstreamCall call])
  else
    (.error (.httpException 403 "Domain not allowed in proxy."), [])

/-- Handler of `POST /api/proxy` (proxy.py lines 47-104).  The blanket
`except Exception` catches every exception raised inside the `try:` block —
including the `HTTPException(403)` for a disallowed domain — and re-raises it
as `HTTPException(500, "Proxy request failed: " + str(e))`. -/
def proxy_request (upstream : OutboundRequest → UpstreamResult) (req : ProxyRequest) :
    Except PyExc HttpResponse × List Ev :=
  match proxyTryBody upstream req with
  | (.ok r, trace) => (.ok r, trace)
  | (.error e, trace) =>
    (.error (.httpException 500 ("Proxy request failed: " ++ excStr e)), trace)

/-- Route `POST /api/proxy` as mounted in main.py: `proxy.router` is included
with no authentication dependency and the handler declares none, so the
`Authorization` header the caller sends (or omits) is ignored entirely. -/
def apiProxyRoute (_authHeader : Option String) (req : ProxyRequest)
    (upstream : OutboundRequest → UpstreamResult) :
    Except PyExc HttpResponse × List Ev :=
  proxy_request upstream req

/-! ## auth.py — caller authentication dependency -/

/-- Dependency `get_current_user` (src/backend/app/auth.py) together with the
framework behaviour of `HTTPBearer`: a request without an `Authorization:
Bearer` header is rejected by `HTTPBearer` with `HTTPException(403, "Not
authenticated")` before the dependency body runs; a presented token is
checked against the external identity provider, abstracted here as the
predicate `isValid` (the `supabase.auth.get_user` call), and every failure
path inside `get_current_user` ends in `HTTPException(401, "Could not
validate credentials")`. -/
def get_current_user (isValid : String → Bool) : Option String → Except PyExc Unit
  | none => .error (.httpException 403 "Not authenticated")
  | some token =>
    if isValid token then .ok ()
    else .error (.httpException 401 "Could not validate credentials")

/-! ## dataforseo.py — the search-data proxy -/

/-- Fixed upstream base of the search-data proxy (dataforseo.py line 10). -/
def DFS_BASE_URL : String := "https://api.dataforseo.com/v3"

/-- Handler of `POST /api/dataforseo/{endpoint:path}` (dataforseo.py lines
12-55).  After the auth dependency, it reads the two credential variables,
fails with a 500 when either is unset or empty, then posts the payload with
basic auth to the built target URL and returns `response.json()` — the
parsed body only, so FastAPI sends it with status 200 whatever the upstream
status was; `raise_for_status` is never called, so the
`httpx.HTTPStatusError` branch of the source is unreachable.  A body that is
not valid JSON raises an uncaught `json.JSONDecodeError`. -/
def proxy_dataforseo (env : String → Option String) (isValid : String → Bool)
    (authHeader : Option String) (endpoint : String) (payload : JsonV)
    (upstream : OutboundRequest → UpstreamResult) :
    Except PyExc JsonV × List Ev :=
  match get_current_user isValid authHeader with
  | .error e => (.error e, [])
  | .ok _ =>
    let evs : List Ev := [.getenv "DATAFORSEO_LOGIN", .getenv "DATAFORSEO_PASSWORD"]
    let dfsLogin := env "DATAFORSEO_LOGIN"
    let dfsPassword := env "DATAFORSEO_PASSWORD"
    if pyFalsyStr dfsLogin || pyFalsyStr dfsPassword then
      (.error (.httpException 500 "Server misconfiguration: Missing DataForSEO credentials"), evs)
    else
      let call : OutboundRequest :=
        { method := "POST"
        , url := DFS_BASE_URL ++ "/" ++ endpoint
        , headers := []
        , jsonBody := some payload
        , basicAuth := some (dfsLogin.getD "", dfsPassword.getD "") }
      match upstream call with
      | .transportError _ =>
        (.error (.httpException 500 "DataForSEO connection failed"), evs ++ [.upstreamCall call])
      | .success _ _ _ parsedBody =>
        match parsedBody with
        | some j => (.ok j, evs ++ [.upstreamCall call])
        | none =>
          (.error (.jsonDecodeError "Expecting value: line 1 column 1 (char 0)"),
           evs ++ [.upstreamCall call])

/-! ## llm.py — the LLM proxy and the streaming relay -/

/-- Upstream streaming exchange as seen by `stream_upstream`: the initial
status code, the full body text that `aread()` would return, and the byte
chunks that `aiter_bytes()` would yield (bytes are modelled as strings of
their decoded text). -/
structure StreamResp where
  statusCode : Nat
  bodyText : String
  chunks : List String

/-- Hexadecimal digit for `\u` escapes. -/
def hexDigit (n : Nat) : Char :=
  if n < 10 then Char.ofNat (48 + n) else Char.ofNat (87 + n)

/-- Four-digit hexadecimal rendering of a code point below 0x10000. -/
def hex4 (n : Nat) : String :=
  String.mk [hexDigit (n / 4096 % 16), hexDigit (n / 256 % 16), hexDigit (n / 16 % 16), hexDigit (n % 16)]

/-- Escaping of one character inside a JSON string literal as produced by
`json.dumps` with its default `ensure_ascii=True` (named escapes for the

common control characters, `\uXXXX` for the rest of the non-printable or
non-ASCII range; code points above 0xFFFF, which Python renders as surrogate
pairs, do not occur in the texts this development evaluates). -/
def jsonEscapeChar (c : Char) : String :=
  if c = '"' then "\\\""
  else if c = '\\' then "\\\\"
  else if c = '\n' then "\\n"
  else if c = '\r' then "\\r"
  else if c = '\t' then "\\t"
  else if c = Char.ofNat 8 then "\\b"
  else if c = Char.ofNat 12 then "\\f"
  else if c.toNat < 32 || c.toNat > 126 then "\\u" ++ hex4 c.toNat
  else String.mk [c]

/-- JSON string literal for `s`, as `json.dumps` renders it. -/
def jsonDumpsStr (s : String) : String :=
  "\"" ++ String.join (s.data.map jsonEscapeChar) ++ "\""

/-- Rendering of `json.dumps({"error": s})` (single-key object, default
separators). -/
def jsonDumpsErrObj (s : String) : String :=
  "\x7b\"error\": " ++ jsonDumpsStr s ++ "\x7d"

/-- Streaming relay `stream_upstream` (llm.py lines 67-76): when the initial
upstream status is not 200, read the error body fully and yield exactly one
server-sent-event line wrapping `{"error": <body text>}`, then stop; when it
is 200, yield every upstream chunk unmodified, in arrival order, and stop at
upstream EOF. -/
def stream_upstream (resp : StreamResp) : List String :=
  if resp.statusCode != 200 then
    ["data: " ++ jsonDumpsErrObj resp.bodyText ++ "\n\n"]
  else
    resp.chunks

/-- Outcome of the LLM handler: a buffered JSON response or a
`text/event-stream` whose events are listed in order. -/
inductive LlmOutcome where
  | json : JsonV → LlmOutcome
  | eventStream : List String → LlmOutcome

/-- Shared tail of `proxy_openai` once the provider branch has fixed the API
key, the base URL and the environment reads performed so far (llm.py lines
38-65): missing key check, target URL and header construction, then either
the streaming relay or a buffered POST whose non-2xx statuses are re-raised
by `raise_for_status` and surfaced as `HTTPException` with the upstream
status and body text. -/
def proxyOpenaiFinish (apiKey : Option String) (baseUrl : String) (evs : List Ev)
    (payload : List (String × JsonV))
    (upstream : OutboundRequest → UpstreamResult)
    (upstreamStream : OutboundRequest → StreamResp) :
    Except PyExc LlmOutcome × List Ev :=
  if pyFalsyStr apiKey then
    (.error (.httpException 500 "Server Configuration Error: Missing API Key for this model type"), evs)
  else
    let targetUrl := baseUrl ++ "/chat/completions"
    let headers : List (String × String) :=
      [("Authorization", "Bearer " ++ apiKey.getD ""), ("Content-Type", "application/json")]
    let call : OutboundRequest :=
      { method := "POST"
      , url := targetUrl
      , headers := headers
      , jsonBody := some (JsonV.obj payload)
      , basicAuth := none }
    if pyTruthyOpt (pyDictGet payload "stream") then
      (.ok (.eventStream (stream_upstream (upstreamStream call))), evs ++ [.upstreamCall call])
    else
      match upstream call with
      | .transportError msg =>
        (.error (.httpException 500 msg), evs ++ [.upstreamCall call])
      | .success status _ text parsedBody =>
        if 200 ≤ status && status < 300 then
          match parsedBody with
          | some j => (.ok (.json j), evs ++ [.upstreamCall call])
          | none =>
            (.error (.httpException 500 "Expecting value: line 1 column 1 (char 0)"),
             evs ++ [.upstreamCall call])
        else
          (.error (.httpException status ("Upstream Provider Error: " ++ text)),
           evs ++ [.upstreamCall call])

/-- Handler of `POST /api/llm/openai-compatible` (llm.py lines 10-65).  After
the auth dependency, `payload.get("model")` is taken (Python `None` when the
key is absent, modelled as `JsonV.null`), the default OpenAI key and base URL
are read from the environment, and then the ordered substring checks
`"gemini" in model_id` / `"deepseek" in model_id` pick the provider; the
membership test itself raises `TypeError` when `model_id` is `None`.  Note
that main.py never mounts `llm.router`, so this handler is not reachable over
HTTP in the source as shipped; it is embedded as written. -/
def proxy_openai (env : String → Option String) (isValid : String → Bool)
    (authHeader : Option String) (payload : List (String × JsonV))
    (upstream : OutboundRequest → UpstreamResult)
    (upstreamStream : OutboundRequest → StreamResp) :
    Except PyExc LlmOutcome × List Ev :=
  match get_current_user isValid authHeader with
  | .error e => (.error e, [])
  | .ok _ =>
    let modelId := (pyDictGet payload "model").getD JsonV.null
    let evs : List Ev := [.getenv "OPENAI_API_KEY", .getenv "OPENAI_BASE_URL"]
    match pyInOp "gemini" modelId with
    | .error e => (.error e, evs)
    | .ok true =>
      proxyOpenaiFinish (env "GEMINI_API_KEY")
        "https://generativelanguage.googleapis.com/v1beta/openai"
        (evs ++ [.getenv "GEMINI_API_KEY"]) payload upstream upstreamStream
    | .ok false =>
      match pyInOp "deepseek" modelId with
      | .error e => (.error e, evs)
      | .ok true =>
        proxyOpenaiFinish (env "DEEPSEEK_API_KEY") "https://api.deepseek.com"
          (evs ++ [.getenv "DEEPSEEK_API_KEY"]) payload upstream upstreamStream
      | .ok false =>
        proxyOpenaiFinish (env "OPENAI_API_KEY")
          ((env "OPENAI_BASE_URL").getD "https://api.openai.com/v1")
          evs payload upstream upstreamStream

/-! ## Concrete test doubles used by witnesses and counterexamples -/

/-- Upstream double answering every call with a 200 JSON response. -/
def upstreamOk : OutboundRequest → UpstreamResult :=
  fun _ => .success 200 (some "application/json") "\x7b\x7d" (some (JsonV.obj []))

/-- Upstream double answering every call with HTTP 404 and a JSON error
body. -/
def upstream404 : OutboundRequest → UpstreamResult :=
  fun _ =>
    .success 404 (some "application/json") "\x7b\"status_code\": 40400\x7d"
      (some (JsonV.obj [("status_code", JsonV.num 40400)]))

/-- Upstream streaming double that accepts and yields three chunks. -/
def upstreamStreamOk : OutboundRequest → StreamResp :=
  fun _ => { statusCode := 200, bodyText := "", chunks := ["a", "b", "c"] }

/-- Identity-provider double accepting exactly the token `good-token`. -/
def isValidTok : String → Bool := fun t => t == "good-token"

/-- Environment double holding every configuration value this development
refers to. -/
def envAll : String → Option String :=
  fun k =>
    if k == "DATAFORSEO_LOGIN" then some "dfs-login"
    else if k == "DATAFORSEO_PASSWORD" then some "dfs-password"
    else if k == "OPENAI_API_KEY" then some "sk-openai"
    else if k == "GEMINI_API_KEY" then some "sk-gemini"
    else if k == "DEEPSEEK_API_KEY" then some "sk-deepseek"
    else none

/-- Proxy request to an allowed domain that carries only the base64 fields:
`payload` is the base64 encoding of `hello` and `encoding` is `"base64"`,
while `body` is `None`. -/
def reqBase64 : ProxyRequest :=
  { url := "https://api.deepl.com/v2/translate"
  , method := "POST"
  , headers := none
  , body := none
  , payload := some "aGVsbG8="
  , encoding := some "base64" }

/-- Proxy request whose target domain is outside the allowlist. -/
def reqEvil : ProxyRequest :=
  { url := "https://evil.com/steal"
  , method := "POST"
  , headers := none
  , body := none
  , payload := none
  , encoding := none }

/-- Proxy request to an allowed domain with a JSON body. -/
def reqAllowed : ProxyRequest :=
  { url := "https://api.deepl.com/v2/translate"
  , method := "POST"
  , headers := none
  , body := some (JsonV.obj [("text", JsonV.str "hi")])
  , payload := none
  , encoding := none }

/-- LLM payload without a `model` key. -/
def payloadNoModel : List (String × JsonV) := [("messages", JsonV.arr [])]

/-- HTTP status the caller of `POST /api/proxy` observes: the status carried
by the constructed `Response` on a normal return, else the status of the
raised exception. -/
def proxyCallerStatus : Except PyExc HttpResponse → Nat
  | .ok r => r.statusCode
  | .error (.httpException status _) => status
  | .error _ => 500

/-- ASCII case-folding of a header name or host, i.e. Python `str.lower()`
for the ASCII strings appearing in this development. -/
def asciiLower (s : String) : String := String.mk (s.data.map Char.toLower)

/-! ## Helper lemmas -/

/-- Unfolded form of `sanitize_headers`. -/
theorem sanitize_headers_eq (h : List (String × String)) :
    sanitize_headers h =
      (if !dictContains (dictDel (dictDel h "host") "Host") "User-Agent"
          && !dictContains (dictDel (dictDel h "host") "Host") "user-agent" then
        dictSet (dictDel (dictDel h "host") "Host") "User-Agent" "SEO-Copilot-Backend/1.0"
      else dictDel (dictDel h "host") "Host") := rfl

/-- The `except` wrapper of `proxy_request` changes the result, never the
effect trace. -/
theorem proxy_request_trace (upstream : OutboundRequest → UpstreamResult) (req : ProxyRequest) :
    (proxy_request upstream req).2 = (proxyTryBody upstream req).2 := by
  unfold proxy_request
  rcases hp : proxyTryBody upstream req with ⟨res, trace⟩
  cases res <;> simp

/-- An admitted domain always leads to an outbound call. -/
theorem proxyTryBody_trace_of_allowed (upstream : OutboundRequest → UpstreamResult)
    (req : ProxyRequest) (h : is_allowed (netloc req.url) = true) :
    (proxyTryBody upstream req).2 ≠ [] := by
  unfold proxyTryBody
  simp only [h, if_true]
  split
  · simp
  · split <;> simp

/-- Deleting one dict key does not affect containment of a different key. -/
theorem dictContains_dictDel (d : List (String × String)) {k q : String} (hne : q ≠ k) :
    dictContains (dictDel d k) q = dictContains d q := by
  induction d with
  | nil => rfl
  | cons a t ih =>
    simp only [dictDel, dictContains, List.filter_cons, List.any_cons] at ih ⊢
    by_cases ha : a.1 = k
    · have h1 : (a.1 != k) = false := by simp [ha]
      have h2 : (a.1 == q) = false := by
        rw [ha]
        exact beq_eq_false_iff_ne.mpr (Ne.symm hne)
      simp [h1, h2, ih]
    · have h1 : (a.1 != k) = true := by simp [ha]
      simp [h1, ih]

/-- Entries surviving the two host deletions carry neither spelling. -/
theorem mem_dictDel_host {h : List (String × String)} {kv : String × String}
    (hm : kv ∈ dictDel (dictDel h "host") "Host") : kv.1 ≠ "host" ∧ kv.1 ≠ "Host" := by
  have h1 := List.mem_filter.mp hm
  have h2 := List.mem_filter.mp h1.1
  exact ⟨by simpa using h2.2, by simpa using h1.2⟩

/-! ## Claims -/

/-- Claim C1, counterexample: a `POST /api/proxy` request that carries no
`Authorization` header at all is forwarded upstream (one outbound call) and
answered with the upstream status 200, not with an authentication error —
the route has no authentication dependency. -/
theorem c1_counterexample_proxy_forwards_without_token :
    (apiProxyRoute none reqAllowed upstreamOk).2 =
      [Ev.upstreamCall
        { method := "POST"
        , url := "https://api.deepl.com/v2/translate"
        , headers := [("User-Agent", "SEO-Copilot-Backend/1.0")]
        , jsonBody := some (JsonV.obj [("text", JsonV.str "hi")])
        , basicAuth := none }]
    ∧ proxyCallerStatus (apiProxyRoute none reqAllowed upstreamOk).1 = 200 :=
  ⟨rfl, rfl⟩

/-- Claim C1, amended: the search-data and LLM handlers run the
`get_current_user` dependency, so a request without a bearer token fails
with 403 and one with an invalid token fails with 401, in both cases with no
effect (no configuration read, no upstream call); the generic `/api/proxy`
route ignores the `Authorization` header entirely and forwards every request
whose target domain is admitted. -/
theorem c1_amended_auth_per_endpoint :
    (∀ (env : String → Option String) (isValid : String → Bool) (endpoint : String)
        (payload : JsonV) (upstream : OutboundRequest → UpstreamResult),
      proxy_dataforseo env isValid none endpoint payload upstream
        = (.error (.httpException 403 "Not authenticated"), []))
    ∧ (∀ (env : String → Option String) (isValid : String → Bool) (tok : String)
        (endpoint : String) (payload : JsonV) (upstream : OutboundRequest → UpstreamResult),
      isValid tok = false →
      proxy_dataforseo env isValid (some tok) endpoint payload upstream
        = (.error (.httpException 401 "Could not validate credentials"), []))
    ∧ (∀ (env : String → Option String) (isValid : String → Bool)
        (payload : List (String × JsonV)) (upstream : OutboundRequest → UpstreamResult)
        (upstreamStream : OutboundRequest → StreamResp),
      proxy_openai env isValid none payload upstream upstreamStream
        = (.error (.httpException 403 "Not authenticated"), []))
    ∧ (∀ (env : String → Option String) (isValid : String → Bool) (tok : String)
        (payload : List (String × JsonV)) (upstream : OutboundRequest → UpstreamResult)
        (upstreamStream : OutboundRequest → StreamResp),
      isValid tok = false →
      proxy_openai env isValid (some tok) payload upstream upstreamStream
        = (.error (.httpException 401 "Could not validate credentials"), []))
    ∧ (∀ (authHeader : Option String) (req : ProxyRequest)
        (upstream : OutboundRequest → UpstreamResult),
      apiProxyRoute authHeader req upstream = apiProxyRoute none req upstream)
    ∧ (∀ (req : ProxyRequest) (upstream : OutboundRequest → UpstreamResult),
      is_allowed (netloc req.url) = true → (apiProxyRoute none req upstream).2 ≠ []) := by
  refine ⟨?_, ?_, ?_, ?_, ?_, ?_⟩
  · intro env isValid endpoint payload upstream
    simp [proxy_dataforseo, get_current_user]
  · intro env isValid tok endpoint payload upstream hv
    simp [proxy_dataforseo, get_current_user, hv]
  · intro env isValid payload upstream upstreamStream
    simp [proxy_openai, get_current_user]
  · intro env isValid tok payload upstream upstreamStream hv
    simp [proxy_openai, get_current_user, hv]
  · intro authHeader req upstream
    rfl
  · intro req upstream h
    have := proxyTryBody_trace_of_allowed upstream req h
    simpa [apiProxyRoute, proxy_request_trace] using this

/-- Witness for the amended C1 at concrete doubles and requests. -/
theorem c1_amended_auth_per_endpoint_witness :
    proxy_dataforseo envAll isValidTok none "x" (JsonV.obj []) upstreamOk
      = (.error (.httpException 403 "Not authenticated"), [])
    ∧ proxy_dataforseo envAll isValidTok (some "bad") "x" (JsonV.obj []) upstreamOk
      = (.error (.httpException 401 "Could not validate credentials"), [])
    ∧ proxy_openai envAll isValidTok none payloadNoModel upstreamOk upstreamStreamOk
      = (.error (.httpException 403 "Not authenticated"), [])
    ∧ proxy_openai envAll isValidTok (some "bad") payloadNoModel upstreamOk upstreamStreamOk
      = (.error (.httpException 401 "Could not validate credentials"), [])
    ∧ apiProxyRoute (some "any") reqAllowed upstreamOk = apiProxyRoute none reqAllowed upstreamOk
    ∧ (apiProxyRoute none reqAllowed upstreamOk).2 ≠ [] :=
  ⟨c1_amended_auth_per_endpoint.1 envAll isValidTok "x" (JsonV.obj []) upstreamOk,
   c1_amended_auth_per_endpoint.2.1 envAll isValidTok "bad" "x" (JsonV.obj []) upstreamOk rfl,
   c1_amended_auth_per_endpoint.2.2.1 envAll isValidTok payloadNoModel upstreamOk upstreamStreamOk,
   c1_amended_auth_per_endpoint.2.2.2.1 envAll isValidTok "bad" payloadNoModel upstreamOk
     upstreamStreamOk rfl,
   c1_amended_auth_per_endpoint.2.2.2.2.1 (some "any") reqAllowed upstreamOk,
   c1_amended_auth_per_endpoint.2.2.2.2.2 reqAllowed upstreamOk rfl⟩

/-- Claim C2, code evaluation: a `/api/proxy` request with `encoding =
"base64"` and `payload = "aGVsbG8="` (the base64 encoding of `hello`) is
forwarded with NO body at all — `proxy_request` never reads the `payload`
and `encoding` fields and sends `request.body`, here `None`. -/
theorem c2_code_eval_base64_ignored :
    reqBase64.encoding = some "base64"
    ∧ reqBase64.payload = some "aGVsbG8="
    ∧ (proxy_request upstreamOk reqBase64).2 =
        [Ev.upstreamCall
          { method := "POST"
          , url := "https://api.deepl.com/v2/translate"
          , headers := [("User-Agent", "SEO-Copilot-Backend/1.0")]
          , jsonBody := none
          , basicAuth := none }] :=
  ⟨rfl, rfl, rfl⟩

/-- Claim C3, code evaluation: the disallowed-domain path raises
`HTTPException(403)` inside the `try:` block, the blanket `except Exception`
catches it, and the caller receives HTTP 500 with the 403 text embedded in
the detail string — not a 401/403. -/
theorem c3_code_eval_deny_surfaces_500 :
    proxy_request upstreamOk reqEvil
      = (.error (.httpException 500 "Proxy request failed: 403: Domain not allowed in proxy."), [])
    ∧ proxyCallerStatus (proxy_request upstreamOk reqEvil).1 = 500 :=
  ⟨rfl, rfl⟩

/-- Claim C4: when the target host is not admitted by the allowlist, no
outbound network call is attempted — the effect trace of `proxy_request` is
empty on the deny path. -/
theorem c4_deny_no_upstream_call (upstream : OutboundRequest → UpstreamResult)
    (req : ProxyRequest) (h : is_allowed (netloc req.url) = false) :
    (proxy_request upstream req).2 = [] := by
  rw [proxy_request_trace]
  unfold proxyTryBody
  simp [h]

/-- Witness for C4 at the concrete disallowed request. -/
theorem c4_deny_no_upstream_call_witness :
    is_allowed (netloc reqEvil.url) = false ∧ (proxy_request upstreamOk reqEvil).2 = [] :=
  ⟨rfl, c4_deny_no_upstream_call upstreamOk reqEvil rfl⟩

/-- Claim C5: the allowlist check admits a host iff it equals an entry of
`ALLOWED_DOMAINS` or ends with `"."` followed by an entry; in particular
`sub.api.deepl.com` is admitted and `api.deepl.com.evil.com` rejected, with
`api.deepl.com` listed. -/
theorem c5_allowlist_matching (H : String) :
    (is_allowed H = true ↔
      ∃ e ∈ ALLOWED_DOMAINS, H = e ∨ ("." ++ e).data <:+ H.data)
    ∧ is_allowed "sub.api.deepl.com" = true
    ∧ is_allowed "api.deepl.com.evil.com" = false
    ∧ "api.deepl.com" ∈ ALLOWED_DOMAINS := by
  refine ⟨?_, rfl, rfl, by decide⟩
  unfold is_allowed
  by_cases hc : ALLOWED_DOMAINS.contains H = true
  · rw [if_pos hc]
    constructor
    · intro _
      rcases List.contains_iff_exists_mem_beq.mp hc with ⟨e, he, hbeq⟩
      exact ⟨e, he, Or.inl (eq_of_beq hbeq)⟩
    · intro _
      rfl
  · rw [if_neg hc, List.any_eq_true]
    constructor
    · rintro ⟨e, he, hp⟩
      rcases (Bool.or_eq_true _ _).mp hp with hb | hb
      · exact ⟨e, he, Or.inl (eq_of_beq hb)⟩
      · refine ⟨e, he, Or.inr ?_⟩
        simpa [pyEndsWith] using hb
    · rintro ⟨e, he, hEq | hSuf⟩
      · refine ⟨e, he, ?_⟩
        simp [hEq]
      · refine ⟨e, he, ?_⟩
        have hs : ('.' :: e.data) <:+ H.data := by simpa using hSuf
        simp [pyEndsWith, hs]

/-- Witness for C5: the subdomain admission follows from the right-to-left
direction of the characterization. -/
theorem c5_allowlist_matching_witness :
    is_allowed "sub.api.deepl.com" = true :=
  (c5_allowlist_matching "sub.api.deepl.com").1.mpr
    ⟨"api.deepl.com", by decide, Or.inr (by decide)⟩

/-- Claim C6, counterexample: case and port are NOT normalized away.  With
`api.deepl.com` admitted, the authority `API.DEEPL.COM` (same host upper
cased) and `api.deepl.com:443` (same host with a port) are both rejected,
so the validator does not reach the same decision as on the bare
lower-cased host. -/
theorem c6_counterexample_case_port_matter :
    asciiLower "API.DEEPL.COM" = "api.deepl.com"
    ∧ is_allowed "api.deepl.com" = true
    ∧ is_allowed (netloc "https://API.DEEPL.COM/v2/translate") = false
    ∧ is_allowed (netloc "https://api.deepl.com:443/v2/translate") = false :=
  ⟨by decide, rfl, rfl, rfl⟩

/-- Claim C6, amended: matching runs on the raw `urlparse` netloc with
letter case preserved and any port retained, so an authority differing from
a listed host by upper-casing or by an explicit port is rejected, while the
exact listed host is admitted. -/
theorem c6_amended_raw_netloc_matching :
    netloc "https://API.DEEPL.COM/v2/translate" = "API.DEEPL.COM"
    ∧ is_allowed "API.DEEPL.COM" = false
    ∧ netloc "https://api.deepl.com:443/v2/translate" = "api.deepl.com:443"
    ∧ is_allowed "api.deepl.com:443" = false
    ∧ netloc "https://api.deepl.com/v2/translate" = "api.deepl.com"
    ∧ is_allowed "api.deepl.com" = true :=
  ⟨rfl, rfl, rfl, rfl, rfl, rfl⟩

/-- Claim C7, code evaluation: the search-data proxy returns
`response.json()` — the parsed body only — so an upstream HTTP 404 with a
JSON error body reaches the caller as that body under FastAPI status 200;
the upstream status code is dropped, contradicting the source comment
`Pass back the status code and data`. -/
theorem c7_code_eval_status_dropped :
    proxy_dataforseo envAll isValidTok (some "good-token") "serp/google/organic/live/advanced"
        (JsonV.obj []) upstream404
      = (.ok (JsonV.obj [("status_code", JsonV.num 40400)]),
         [Ev.getenv "DATAFORSEO_LOGIN", Ev.getenv "DATAFORSEO_PASSWORD",
          Ev.upstreamCall
            { method := "POST"
            , url := "https://api.dataforseo.com/v3/serp/google/organic/live/advanced"
            , headers := []
            , jsonBody := some (JsonV.obj [])
            , basicAuth := some ("dfs-login", "dfs-password") }])
    ∧ fastapiStatus (proxy_dataforseo envAll isValidTok (some "good-token")
        "serp/google/organic/live/advanced" (JsonV.obj []) upstream404).1 = 200 :=
  ⟨rfl, rfl⟩

/-- Claim C8: on upstream status 200 the relay yields exactly the upstream
chunks in order with no synthetic terminal event; on any other initial
status it yields exactly one server-sent-event line wrapping
`{"error": <body text>}` and then ends. -/
theorem c8_streaming_relay :
    (∀ (b1 b2 b3 bodyText : String),
      stream_upstream { statusCode := 200, bodyText := bodyText, chunks := [b1, b2, b3] }
        = [b1, b2, b3])
    ∧ (∀ (status : Nat) (bodyText : String) (chunks : List String), status ≠ 200 →
      stream_upstream { statusCode := status, bodyText := bodyText, chunks := chunks }
        = ["data: " ++ jsonDumpsErrObj bodyText ++ "\n\n"]) := by
  constructor
  · intro b1 b2 b3 bodyText
    simp [stream_upstream]
  · intro status bodyText chunks h
    simp [stream_upstream, h]

/-- Witness for C8 with three concrete chunks and a concrete 500. -/
theorem c8_streaming_relay_witness :
    stream_upstream { statusCode := 200, bodyText := "", chunks := ["a", "b", "c"] }
      = ["a", "b", "c"]
    ∧ stream_upstream { statusCode := 500, bodyText := "boom", chunks := [] }
      = ["data: " ++ jsonDumpsErrObj "boom" ++ "\n\n"] :=
  ⟨c8_streaming_relay.1 "a" "b" "c" "", c8_streaming_relay.2 500 "boom" [] (by decide)⟩

/-- Claim C9, counterexample: the sanitizer misses other capitalizations.
The header `HOST` (case-folding to `host`) survives sanitization, and a
caller-supplied `USER-AGENT` (case-folding to `user-agent`) does not stop
the default `User-Agent` from being added, producing two user-agent
entries. -/
theorem c9_counterexample_casefold_not_handled :
    ("HOST", "example.com") ∈ sanitize_headers [("HOST", "example.com")]
    ∧ asciiLower "HOST" = "host"
    ∧ sanitize_headers [("USER-AGENT", "x")]
        = [("USER-AGENT", "x"), ("User-Agent", "SEO-Copilot-Backend/1.0")]
    ∧ asciiLower "USER-AGENT" = "user-agent" :=
  ⟨by decide, by decide, rfl, rfl⟩

/-- Claim C9, amended: the sanitizer removes exactly the headers named
`host` and `Host` (no output entry carries either exact spelling); when the
caller supplied a header named exactly `User-Agent` or exactly `user-agent`
it adds nothing (so no duplicate arises for those spellings); when neither
is present it appends the single default `User-Agent` entry. -/
theorem c9_amended_sanitizer_exact_spellings (h : List (String × String)) :
    (∀ kv ∈ sanitize_headers h, kv.1 ≠ "host" ∧ kv.1 ≠ "Host")
    ∧ (dictContains h "User-Agent" = true →
        sanitize_headers h = dictDel (dictDel h "host") "Host")
    ∧ (dictContains h "user-agent" = true →
        sanitize_headers h = dictDel (dictDel h "host") "Host")
    ∧ (dictContains h "User-Agent" = false → dictContains h "user-agent" = false →
        sanitize_headers h = dictDel (dictDel h "host") "Host"
          ++ [("User-Agent", "SEO-Copilot-Backend/1.0")]) := by
  have hUA : dictContains (dictDel (dictDel h "host") "Host") "User-Agent"
      = dictContains h "User-Agent" := by
    rw [dictContains_dictDel _ (by decide), dictContains_dictDel _ (by decide)]
  have hua : dictContains (dictDel (dictDel h "host") "Host") "user-agent"
      = dictContains h "user-agent" := by
    rw [dictContains_dictDel _ (by decide), dictContains_dictDel _ (by decide)]
  refine ⟨?_, ?_, ?_, ?_⟩
  · intro kv hkv
    rw [sanitize_headers_eq] at hkv
    by_cases hcond : (!dictContains (dictDel (dictDel h "host") "Host") "User-Agent"
        && !dictContains (dictDel (dictDel h "host") "Host") "user-agent") = true
    · rw [if_pos hcond] at hkv
      have hnc : dictContains (dictDel (dictDel h "host") "Host") "User-Agent" = false := by
        rcases Bool.and_eq_true_iff.mp hcond with ⟨hl, _⟩
        simpa using hl
      rw [dictSet, if_neg (by simp [hnc])] at hkv
      rcases List.mem_append.mp hkv with hin | hin
      · exact mem_dictDel_host hin
      · have hkv2 : kv = ("User-Agent", "SEO-Copilot-Backend/1.0") := by simpa using hin
        rw [hkv2]
        exact ⟨by decide, by decide⟩
    · rw [if_neg hcond] at hkv
      exact mem_dictDel_host hkv
  · intro hc
    rw [sanitize_headers_eq]
    have e1 : dictContains (dictDel (dictDel h "host") "Host") "User-Agent" = true := by
      rw [hUA]
      exact hc
    simp [e1]
  · intro hc
    rw [sanitize_headers_eq]
    have e2 : dictContains (dictDel (dictDel h "host") "Host") "user-agent" = true := by
      rw [hua]
      exact hc
    simp [e2]
  · intro hc1 hc2
    rw [sanitize_headers_eq]
    have e1 : dictContains (dictDel (dictDel h "host") "Host") "User-Agent" = false := by
      rw [hUA]
      exact hc1
    have e2 : dictContains (dictDel (dictDel h "host") "Host") "user-agent" = false := by
      rw [hua]
      exact hc2
    simp [e1, e2, dictSet]

/-- Witness for the amended C9 at a concrete header dict. -/
theorem c9_amended_witness :
    sanitize_headers [("Host", "a"), ("User-Agent", "ua")]
      = dictDel (dictDel [("Host", "a"), ("User-Agent", "ua")] "host") "Host"
    ∧ ("User-Agent", "ua").1 ≠ "host" :=
  ⟨(c9_amended_sanitizer_exact_spellings [("Host", "a"), ("User-Agent", "ua")]).2.1 rfl,
   ((c9_amended_sanitizer_exact_spellings [("Host", "a"), ("User-Agent", "ua")]).1
      ("User-Agent", "ua") (by decide)).1⟩

/-- Claim C10, counterexample: a payload without a `model` key DOES raise
the unhandled `TypeError` before any upstream call, but only after the two
default configuration keys `OPENAI_API_KEY` and `OPENAI_BASE_URL` have been
read — the trace refutes `before reading any configuration key`. -/
theorem c10_counterexample_env_read_first :
    proxy_openai envAll isValidTok (some "good-token") payloadNoModel upstreamOk upstreamStreamOk
      = (.error (.typeError "argument of type NoneType is not iterable"),
         [Ev.getenv "OPENAI_API_KEY", Ev.getenv "OPENAI_BASE_URL"])
    ∧ Ev.getenv "OPENAI_API_KEY"
        ∈ (proxy_openai envAll isValidTok (some "good-token") payloadNoModel upstreamOk
            upstreamStreamOk).2 := by
  refine ⟨rfl, ?_⟩
  have htr : (proxy_openai envAll isValidTok (some "good-token") payloadNoModel upstreamOk
      upstreamStreamOk).2 = [Ev.getenv "OPENAI_API_KEY", Ev.getenv "OPENAI_BASE_URL"] := rfl
  rw [htr]
  exact List.mem_cons_self _ _

/-- Claim C10, amended: for an authenticated LLM request whose payload lacks
a `model` key, the handler raises an unhandled `TypeError` (the substring
membership test runs on `None`) after reading the default `OPENAI_API_KEY`
and `OPENAI_BASE_URL` configuration keys but before reading any
provider-specific key and before any upstream network call. -/
theorem c10_amended_typeerror_after_default_env (env : String → Option String)
    (isValid : String → Bool) (tok : String) (payload : List (String × JsonV))
    (upstream : OutboundRequest → UpstreamResult)
    (upstreamStream : OutboundRequest → StreamResp)
    (hv : isValid tok = true) (hm : pyDictGet payload "model" = none) :
    proxy_openai env isValid (some tok) payload upstream upstreamStream
      = (.error (.typeError "argument of type NoneType is not iterable"),
         [Ev.getenv "OPENAI_API_KEY", Ev.getenv "OPENAI_BASE_URL"]) := by
  simp [proxy_openai, get_current_user, hv, hm, pyInOp]

/-- Witness for the amended C10 at the concrete payload without `model`. -/
theorem c10_amended_witness :
    proxy_openai envAll isValidTok (some "good-token") payloadNoModel upstreamOk upstreamStreamOk
      = (.error (.typeError "argument of type NoneType is not iterable"),
         [Ev.getenv "OPENAI_API_KEY", Ev.getenv "OPENAI_BASE_URL"]) :=
  c10_amended_typeerror_after_default_env envAll isValidTok "good-token" payloadNoModel
    upstreamOk upstreamStreamOk rfl rfl

end SeoMaster
